import Mathlib

/-!
Verification of the EV-charging session/payment engine of Project-Octavius.

The development shallowly embeds the Python backend:
* `payment.py` — `PaymentManager.get_payment_requirements` and the
  simulated tail of `PaymentManager.verify_payment`;
* `simple_main.py` — the single-active-session server
  (`start_session`, `get_current_session`, `stop_session`, `verify_payment`);
* `main.py` — `start_charging` and `process_payment` over a session store;
* `app.py` — `start_charging` and `stop_charging`.

Python floats are modelled as rationals (`ℚ`); Python's `round(x, 2)` is
modelled as rounding `100*x` to the nearest integer (all inputs appearing in
the concrete theorems below are unambiguous, so the half-way convention is
irrelevant to them).  Nondeterministic inputs (current time, generated ids,
generated transaction hashes) are passed as explicit parameters.
-/

/-- `round(x, 2)` of Python: round to two decimal places. -/
def round2 (q : ℚ) : ℚ := ((round (q * 100) : ℤ) : ℚ) / 100

/-- A charging station of the catalog (`stations` in `simple_main.py`,
`charging_stations` in `main.py`).  Fields irrelevant to every claim
(`lat`, `lng`, `location`) are kept for faithfulness. -/
structure Station where
  id : String
  name : String
  lat : ℚ
  lng : ℚ
  price : ℚ
  available : Bool
  location : String
  rate_kwh : ℚ
  rate_crypto : ℚ
  power_kw : ℚ
deriving DecidableEq, Repr, Inhabited

/-- The station catalog of `simple_main.py` (seven Bangalore stations). -/
def stations : List Station :=
  [ { id := "station-001", name := "ChargeX Indiranagar", lat := 129784/10000,
      lng := 776408/10000, price := 205/10, available := true,
      location := "100 Feet Rd, Indiranagar, Bangalore",
      rate_kwh := 205/10, rate_crypto := 25/100, power_kw := 150 },
    { id := "station-002", name := "ChargeX Whitefield Hub", lat := 129697/10000,
      lng := 777499/10000, price := 22, available := true,
      location := "ITPL Main Rd, Whitefield, Bangalore",
      rate_kwh := 22, rate_crypto := 27/100, power_kw := 120 },
    { id := "station-003", name := "ChargeX Electronic City", lat := 128458/10000,
      lng := 776663/10000, price := 195/10, available := false,
      location := "Phase 1, Electronic City, Bangalore",
      rate_kwh := 195/10, rate_crypto := 24/100, power_kw := 50 },
    { id := "station-004", name := "ChargeX Koramangala", lat := 129338/10000,
      lng := 776341/10000, price := 21, available := true,
      location := "80 Feet Rd, 4th Block, Koramangala, Bangalore",
      rate_kwh := 21, rate_crypto := 26/100, power_kw := 100 },
    { id := "station-005", name := "ChargeX MG Road", lat := 129758/10000,
      lng := 776096/10000, price := 235/10, available := true,
      location := "MG Road, Central Bangalore",
      rate_kwh := 235/10, rate_crypto := 29/100, power_kw := 200 },
    { id := "station-006", name := "ChargeX Hebbal", lat := 130365/10000,
      lng := 775963/10000, price := 215/10, available := true,
      location := "Bellary Road, Hebbal, Bangalore",
      rate_kwh := 215/10, rate_crypto := 26/100, power_kw := 150 },
    { id := "station-007", name := "ChargeX Jayanagar", lat := 129299/10000,
      lng := 775933/10000, price := 20, available := true,
      location := "11th Main Rd, 4th Block, Jayanagar, Bangalore",
      rate_kwh := 20, rate_crypto := 24/100, power_kw := 100 } ]

/-- The station catalog of `main.py`: verbatim the first five entries of the
`simple_main.py` catalog. -/
def charging_stations : List Station := stations.take 5

/-- `next((s for s in stations if s["id"] == station_id), None)`. -/
def findStation (l : List Station) (station_id : String) : Option Station :=
  l.find? (fun s => s.id == station_id)

/-- An HTTP error (`HTTPException(status_code=..., detail=...)`). -/
structure HErr where
  status : ℕ
  detail : String
deriving DecidableEq, Repr, Inhabited

/-- Pad a string with leading zeros to length `n` (Python's `str.zfill`). -/
def zfill (n : ℕ) (s : String) : String :=
  String.mk (List.replicate (n - s.length) '0') ++ s

/-- The default of the `CHARGING_RATE_PER_KWH` environment option read by
`PaymentManager.__init__` in `payment.py` (`"0.35"`). -/
def defaultChargingRate : ℚ := 35/100

/-- A payment requirement returned by
`PaymentManager.get_payment_requirements` (`payment.py`); the fields every
caller reads. -/
structure PaymentReq where
  amount : ℚ
  currency : String
  station_id : String
  payment_id : String
  recipient : String
  network : String
deriving DecidableEq, Repr, Inhabited

/-- `PaymentManager.get_payment_requirements` (`payment.py` lines 85-161).
`chargingRate` is the manager's `self.charging_rate` (configured from the
environment, station-independent); `payment_id` stands for the generated
`f"pay-{uuid.uuid4().hex[:8]}"`.  Both the x402 branch and the
fallback/simulation branch return the `amount` computed on the first line,
`round(kwh_amount * self.charging_rate, 2)`, and the same recipient
`f"0x{station_id.zfill(40)}"`, so the embedding is branch-independent in
every field a claim mentions. -/
def get_payment_requirements (chargingRate : ℚ) (kwh_amount : ℚ)
    (station_id : String) (payment_id : String) : PaymentReq :=
  { amount := round2 (kwh_amount * chargingRate)
    currency := "USDC"
    station_id := station_id
    payment_id := payment_id
    recipient := "0x" ++ zfill 40 station_id
    network := "Base-Sepolia" }

/-- The submitted payment data seen by `PaymentManager.verify_payment`:
`payment_data.get("proof", {}).get("tx_hash", ...)` is modelled by the single
optional field `proofTxHash` (absence at either level is `none`). -/
structure PaymentData where
  proofTxHash : Option String
deriving DecidableEq, Repr, Inhabited

/-- A verification result (`{verified, tx_hash, error}`). -/
structure VerificationResult where
  verified : Bool
  tx_hash : String
  error : Option String
deriving DecidableEq, Repr, Inhabited

/-- The simulated tail of `PaymentManager.verify_payment` (`payment.py`
lines 218-237), the path taken whenever the real x402 verification is
unavailable and fallback is enabled:
`simulated_tx_hash = payment_data.get("proof", {}).get("tx_hash",
f"0x{uuid.uuid4().hex}")`, always `verified=True`.  `fresh` stands for the
generated `uuid.uuid4().hex`. -/
def verify_payment_simulated (pd : PaymentData) (fresh : String) :
    VerificationResult :=
  { verified := true
    tx_hash := pd.proofTxHash.getD ("0x" ++ fresh)
    error := none }

/-! ## `simple_main.py`: the single-active-session server -/

/-- A session status.  `simple_main.py` stores the status as a string and
only ever assigns `"awaiting_payment"`, `"charging"` and `"completed"`; the
constructors `stopped` and `failed` name the `Stopped` / `Failed` states of
the specification's state machine so that their absence from the code can be
stated. -/
inductive SessionStatus
  | awaitingPayment
  | charging
  | completed
  | stopped
  | failed
deriving DecidableEq, Repr, Inhabited

/-- The `payment` sub-dictionary of an active session in `simple_main.py`
(the fields a claim mentions; `tx_hash` is absent until verification). -/
structure SessionPayment where
  amount : ℚ
  currency : String
  recipient : String
  tx_hash : Option String
deriving DecidableEq, Repr, Inhabited

/-- The `active_session` dictionary of `simple_main.py`.  Timestamps
(`startTime`, `chargingStartTime`, `endTime`) are abstract `ℕ` instants
passed in as `now` parameters; `currentEnergy`/`currentAmount` duplicate
`kwh_delivered`/cost exactly as the code maintains both. -/
structure SimpleSession where
  id : String
  stationId : String
  stationName : String
  startTime : ℕ
  price : ℚ
  paymentId : String
  status : SessionStatus
  currentEnergy : ℚ
  currentAmount : ℚ
  kwh_delivered : ℚ
  kwh_total : ℚ
  time_elapsed : ℚ
  payment : SessionPayment
  chargingStartTime : Option ℕ
  endTime : Option ℕ
deriving DecidableEq, Repr, Inhabited

/-- A settlement record appended to `transactions` in `simple_main.py`. -/
structure Transaction where
  station : String
  amount : ℚ
  energy : ℚ
  status : String
deriving DecidableEq, Repr, Inhabited

/-- An entry of the append-only `agent_logs` list. -/
structure LogEntry where
  timestamp : ℕ
  action : String
  details : String
deriving DecidableEq, Repr, Inhabited

/-- The mutable module-level state of `simple_main.py`: the single global
`active_session`, the `transactions` list and the `agent_logs` list. -/
structure ServerState where
  activeSession : Option SimpleSession
  transactions : List Transaction
  agent_logs : List LogEntry
deriving DecidableEq, Repr, Inhabited

/-- The empty initial server state (`active_session = None`, empty
settlement and log lists — the seeded demo rows are irrelevant to every
claim and omitted). -/
def initialState : ServerState :=
  { activeSession := none, transactions := [], agent_logs := [] }

/-- `start_session` (`simple_main.py` lines 187-243).  `chargingRate` is the
payment manager's configured rate, `session_id` and `payment_id` stand for
the generated random ids, `now` for the current time.  Unknown station →
404; unavailable station → 400; otherwise the global active session is
unconditionally overwritten with a fresh `awaiting_payment` session whose
quote comes from `get_payment_requirements`. -/
def start_session (st : ServerState) (chargingRate : ℚ) (stationId : String)
    (amount : ℚ) (session_id payment_id : String) (now : ℕ) :
    Except HErr (ServerState × SimpleSession) :=
  match findStation stations stationId with
  | none => .error ⟨404, "Station not found"⟩
  | some station =>
    if station.available = false then
      .error ⟨400, "Station not available"⟩
    else
      let payment_req := get_payment_requirements chargingRate amount stationId payment_id
      let s : SimpleSession :=
        { id := session_id
          stationId := stationId
          stationName := station.name
          startTime := now
          price := station.price
          paymentId := payment_req.payment_id
          status := .awaitingPayment
          currentEnergy := 0
          currentAmount := 0
          kwh_delivered := 0
          kwh_total := amount
          time_elapsed := 0
          payment := { amount := payment_req.amount
                       currency := payment_req.currency
                       recipient := payment_req.recipient
                       tx_hash := none }
          chargingStartTime := none
          endTime := none }
      .ok ({ activeSession := some s
             transactions := st.transactions
             agent_logs := st.agent_logs ++
               [⟨now, "session_start",
                 "Started charging session at " ++ station.name⟩] }, s)

/-- `get_current_session` (`simple_main.py` lines 245-293), the status poll.
No active session → 404.  On a `charging` session: advance `time_elapsed` by
the fixed 300-second tick, add `kwh_total / 10800 * 300` to the delivered
energy, recompute `currentAmount = round(kwh_delivered * price, 2)`, and —
if the new delivered energy reaches `kwh_total` — clamp the energy to
`kwh_total`, set `time_elapsed = 10800`, mark the session `completed`, set
`endTime`, and append a settlement record and a completion log entry.  Note
the clamp does not recompute `currentAmount`. -/
def get_current_session (st : ServerState) (now : ℕ) :
    Except HErr (ServerState × SimpleSession) :=
  match st.activeSession with
  | none => .error ⟨404, "No active session"⟩
  | some s =>
    if s.status = .charging then
      let elapsed_increase : ℚ := 300
      let kwh_rate := s.kwh_total / 10800
      let kwh_increase := kwh_rate * elapsed_increase
      let kwh' := s.kwh_delivered + kwh_increase
      let currentAmount' := round2 (kwh' * s.price)
      if s.kwh_total ≤ kwh' then
        let s' := { s with
          time_elapsed := 10800
          currentEnergy := s.kwh_total
          kwh_delivered := s.kwh_total
          currentAmount := currentAmount'
          status := .completed
          endTime := some now }
        .ok ({ activeSession := some s'
               transactions := st.transactions ++
                 [⟨s.stationName, currentAmount', s.kwh_total, "completed"⟩]
               agent_logs := st.agent_logs ++
                 [⟨now, "session_complete",
                   "Completed charging session at " ++ s.stationName⟩] }, s')
      else
        let s' := { s with
          time_elapsed := s.time_elapsed + elapsed_increase
          currentEnergy := s.currentEnergy + kwh_increase
          kwh_delivered := kwh'
          currentAmount := currentAmount' }
        .ok ({ st with activeSession := some s' }, s')
    else
      .ok (st, s)

/-- `stop_session` (`simple_main.py` lines 295-325).  No active session →
404; otherwise — with no check of the session's status — mark it
`completed`, set `endTime`, append a settlement record carrying the current
`currentAmount`/`currentEnergy` and a log entry, and clear the global active
session (`active_session = None`), returning the completed session. -/
def stop_session (st : ServerState) (now : ℕ) :
    Except HErr (ServerState × SimpleSession) :=
  match st.activeSession with
  | none => .error ⟨404, "No active session"⟩
  | some s =>
    let s' := { s with status := .completed, endTime := some now }
    .ok ({ activeSession := none
           transactions := st.transactions ++
             [⟨s.stationName, s.currentAmount, s.currentEnergy, "completed"⟩]
           agent_logs := st.agent_logs ++
             [⟨now, "session_stop",
               "Completed charging session at " ++ s.stationName⟩] }, s')

/-- The response dictionary of `verify_payment` in `simple_main.py`. -/
structure VerifyResponse where
  verified : Bool
  session : SimpleSession
  tx_hash : Option String
  error : Option String
deriving DecidableEq, Repr, Inhabited

/-- The branch of `verify_payment` (`simple_main.py` lines 341-376) on the
computed `verification_result`.  Verified: set the session to `charging`,
record the transaction hash in the payment sub-dictionary and
`chargingStartTime = now`, append a log entry, and seed one minute of
progress (`time_elapsed = 60`, `kwh_delivered = kwh_total * (60/10800)`,
matching `currentEnergy` and recomputed `currentAmount`).  Rejected: leave
the server state untouched and report the error. -/
def applyVerification (vr : VerificationResult) (now : ℕ) (st : ServerState)
    (s : SimpleSession) : ServerState × VerifyResponse :=
  if vr.verified then
    let s' := { s with
      status := .charging
      payment := { s.payment with tx_hash := some vr.tx_hash }
      chargingStartTime := some now
      time_elapsed := 60
      kwh_delivered := s.kwh_total * (60 / 10800)
      currentEnergy := s.kwh_total * (60 / 10800)
      currentAmount := round2 (s.kwh_total * (60 / 10800) * s.price) }
    ({ st with
        activeSession := some s'
        agent_logs := st.agent_logs ++
          [⟨now, "payment_verified",
            "Payment verified successfully: " ++ vr.tx_hash⟩] },
     { verified := true, session := s', tx_hash := some vr.tx_hash, error := none })
  else
    (st, { verified := false, session := s, tx_hash := none
           error := some (vr.error.getD "Payment verification failed") })

/-- `verify_payment` (`simple_main.py` lines 327-376).  404 unless an active
session with the given id exists; the verification result is hardcoded to
`{"verified": True, "tx_hash": f"0x{os.urandom(32).hex()}"}` ("For the demo,
always verify the payment successfully"), with `freshTx` standing for the
generated hex string.  No check of the session's status is performed. -/
def verify_payment (st : ServerState) (session_id : String)
    (freshTx : String) (now : ℕ) : Except HErr (ServerState × VerifyResponse) :=
  match st.activeSession with
  | none => .error ⟨404, "No active session with that ID found"⟩
  | some s =>
    if s.id ≠ session_id then
      .error ⟨404, "No active session with that ID found"⟩
    else
      .ok (applyVerification ⟨true, "0x" ++ freshTx, none⟩ now st s)

/-! ## `main.py`: the keyed session store -/

/-- A session of `main.py`'s `active_sessions` dictionary.  The crypto
branch stores `rate_crypto` and `payment_required` and no `start_time`; the
card branch stores `rate_kwh` and an immediate `start_time`; absent keys are
`none`.  `start_time` is `time.time()`, modelled as a rational instant. -/
structure MainSession where
  station_id : String
  start_time : Option ℚ
  status : SessionStatus
  kwh_delivered : ℚ
  amount_kwh : ℚ
  rate_crypto : Option ℚ
  rate_kwh : Option ℚ
  power_kw : ℚ
  payment_required : Option ℚ
deriving DecidableEq, Repr, Inhabited

/-- The payment block of `main.py`'s crypto start response. -/
structure MainPaymentInfo where
  amount : ℚ
  currency : String
  recipient_address : String
  chain : String
  scheme : String
  token_address : String
deriving DecidableEq, Repr, Inhabited

/-- The response of `main.py`'s `start_charging`: the card branch returns no
payment block. -/
structure MainStartResponse where
  session_id : String
  status : SessionStatus
  payment : Option MainPaymentInfo
deriving DecidableEq, Repr, Inhabited

/-- Dictionary lookup in a session store (insertion-ordered association
list). -/
def lookupSession (l : List (String × MainSession)) (session_id : String) :
    Option MainSession :=
  (l.find? (fun p => p.1 == session_id)).map (fun p => p.2)

/-- `start_charging` (`main.py` lines 125-173).  Unknown station → 404 (no
availability check exists in this file).  With `payment_method = "crypto"`:
store an `awaiting_payment` session with `start_time = None` and
`payment_required = rate_crypto * amount_kwh`, and answer with a quote of
`round(rate_crypto * amount_kwh, 2)`.  Otherwise: store a `charging` session
with `start_time = now` and answer `{"status": "charging"}` with no payment
block. -/
def main_start_charging (sessions : List (String × MainSession))
    (station_id : String) (amount_kwh : ℚ) (payment_method : String)
    (session_id : String) (now : ℚ) :
    Except HErr (List (String × MainSession) × MainStartResponse) :=
  match findStation charging_stations station_id with
  | none => .error ⟨404, "Charging station not found"⟩
  | some station =>
    if payment_method = "crypto" then
      let s : MainSession :=
        { station_id := station.id
          start_time := none
          status := .awaitingPayment
          kwh_delivered := 0
          amount_kwh := amount_kwh
          rate_crypto := some station.rate_crypto
          rate_kwh := none
          power_kw := station.power_kw
          payment_required := some (station.rate_crypto * amount_kwh) }
      .ok (sessions ++ [(session_id, s)],
           { session_id := session_id
             status := .awaitingPayment
             payment := some
               { amount := round2 (station.rate_crypto * amount_kwh)
                 currency := "USDC"
                 recipient_address := "0xSimulatedStationWalletAddress"
                 chain := "base-sepolia"
                 scheme := "exact"
                 token_address := "0xSimulatedUSDCContractAddress" } })
    else
      let s : MainSession :=
        { station_id := station.id
          start_time := some now
          status := .charging
          kwh_delivered := 0
          amount_kwh := amount_kwh
          rate_crypto := none
          rate_kwh := some station.rate_kwh
          power_kw := station.power_kw
          payment_required := none }
      .ok (sessions ++ [(session_id, s)],
           { session_id := session_id, status := .charging, payment := none })

/-- A settlement record of `main.py`'s `payment_history`. -/
structure MainPayment where
  amount : ℚ
  currency : String
  timestamp : ℚ
  tx_hash : String
  session_id : String
deriving DecidableEq, Repr, Inhabited

/-- `process_payment` (`main.py` lines 175-207): 404 on unknown session, 400
(`"Session not awaiting payment"`) unless the session's status is
`awaiting_payment`; otherwise append a settlement record with a freshly
generated transaction hash (`freshTx` stands for `os.urandom(32).hex()`),
set the session `charging` with `start_time = now`, and answer
`payment_accepted`. -/
def main_process_payment (sessions : List (String × MainSession))
    (payments : List MainPayment) (session_id : String) (freshTx : String)
    (now : ℚ) :
    Except HErr (List (String × MainSession) × List MainPayment × String) :=
  match lookupSession sessions session_id with
  | none => .error ⟨404, "Session not found"⟩
  | some s =>
    if s.status ≠ .awaitingPayment then
      .error ⟨400, "Session not awaiting payment"⟩
    else
      let tx_hash := "0x" ++ freshTx
      let payment : MainPayment :=
        { amount := s.payment_required.getD 0
          currency := "USDC"
          timestamp := now
          tx_hash := tx_hash
          session_id := session_id }
      let s' := { s with status := .charging, start_time := some now }
      .ok (sessions.map (fun p => if p.1 == session_id then (p.1, s') else p),
           payments ++ [payment], tx_hash)

/-! ## `app.py`: the third session-flow variant -/

/-- A status of `app.py`'s sessions (`"initiated"`, `"charging"`,
`"completed"` are the only strings the file assigns). -/
inductive AppStatus
  | initiated
  | charging
  | completed
deriving DecidableEq, Repr, Inhabited

/-- A session of `app.py`'s `active_sessions` dictionary (the fields the
claims mention; `progress`, `energy_delivered`, `current_cost` and
`final_cost` are absent until first written). -/
structure AppSession where
  id : String
  station_id : String
  station_name : String
  start_time : ℕ
  amount_kwh : ℚ
  price_kwh : ℚ
  total_cost : ℚ
  status : AppStatus
  energy_delivered : Option ℚ
  final_cost : Option ℚ
  end_time : Option ℕ
deriving DecidableEq, Repr, Inhabited

/-- Dictionary lookup in `app.py`'s session store. -/
def lookupAppSession (l : List (String × AppSession)) (session_id : String) :
    Option AppSession :=
  (l.find? (fun p => p.1 == session_id)).map (fun p => p.2)

/-- The response of `app.py`'s `start_charging`: either an x402
payment-required block (crypto) or an immediate charging confirmation
(card). -/
inductive AppStartResponse
  | paymentRequired (session_id : String) (amount : ℚ) (currency : String)
      (recipient : String)
  | charging (session_id : String) (amount : ℚ) (start_time : ℕ)
deriving DecidableEq, Repr, Inhabited

/-- `start_charging` (`app.py` lines 85-126).  Unknown station → 404,
unavailable → 400; otherwise a session is created with status `initiated`
and `start_time = now`.  Crypto: answer with the payment requirement,
leaving the stored status `initiated`.  Card: set the stored status to
`charging` and answer with the charging confirmation. -/
def app_start_charging (appStations : List Station)
    (sessions : List (String × AppSession)) (station_id : String)
    (amount_kwh : ℚ) (payment_method : String) (session_id : String)
    (now : ℕ) :
    Except HErr (List (String × AppSession) × AppStartResponse) :=
  match findStation appStations station_id with
  | none => .error ⟨404, "Station not found"⟩
  | some station =>
    if station.available = false then
      .error ⟨400, "Station not available"⟩
    else
      let s : AppSession :=
        { id := session_id
          station_id := station.id
          station_name := station.name
          start_time := now
          amount_kwh := amount_kwh
          price_kwh := station.price
          total_cost := station.price * amount_kwh
          status := .initiated
          energy_delivered := none
          final_cost := none
          end_time := none }
      if payment_method = "crypto" then
        .ok (sessions ++ [(session_id, s)],
             .paymentRequired session_id (station.price * amount_kwh) "USDC"
               "0x1234567890abcdef1234567890abcdef12345678")
      else
        let s' := { s with status := .charging }
        .ok (sessions ++ [(session_id, s')],
             .charging session_id (station.price * amount_kwh) now)

/-- `stop_charging` (`app.py` lines 209-234).  404 on unknown session, 400
(`"Session is not in charging state"`) unless the session is `charging`;
otherwise mark it `completed`, set `end_time = now`, and recompute
`energy_delivered = min(1, elapsed/1800) * amount_kwh` and
`final_cost = price_kwh * energy_delivered` from the wall-clock `elapsed`
seconds (passed explicitly).  The session stays in the store. -/
def app_stop_charging (sessions : List (String × AppSession))
    (session_id : String) (elapsed : ℚ) (now : ℕ) :
    Except HErr (List (String × AppSession) × AppSession) :=
  match lookupAppSession sessions session_id with
  | none => .error ⟨404, "Session not found"⟩
  | some s =>
    if s.status ≠ .charging then
      .error ⟨400, "Session is not in charging state"⟩
    else
      let progress := min 1 (elapsed / 1800)
      let s' := { s with
        status := .completed
        end_time := some now
        energy_delivered := some (progress * s.amount_kwh)
        final_cost := some (s.price_kwh * (progress * s.amount_kwh)) }
      .ok (sessions.map (fun p => if p.1 == session_id then (p.1, s') else p), s')

/-! ## Concrete scenario used by the counterexamples and witnesses:
station-001 (price 20.5, rate_crypto 0.25), 10 kWh, default configuration -/

/-- One status poll, keeping the server state (and ignoring a 404). -/
def afterPoll (st : ServerState) : ServerState :=
  match get_current_session st 0 with
  | .ok (st', _) => st'
  | .error _ => st

/-- Server state after `start_session` for 10 kWh at station-001 under the
default charging rate. -/
def scenarioStart : ServerState :=
  match start_session initialState defaultChargingRate "station-001" 10
      "session-1" "pay-1" 0 with
  | .ok (st, _) => st
  | .error _ => initialState

/-- Server state after the payment of the scenario session is verified. -/
def scenarioVerified : ServerState :=
  match verify_payment scenarioStart "session-1" "aa" 0 with
  | .ok (st, _) => st
  | .error _ => scenarioStart

/-- Server state after `n` further status polls of the scenario session. -/
def scenarioAfter (n : ℕ) : ServerState := afterPoll^[n] scenarioVerified

/-- The session created by the scenario's `start_session` call. -/
def scenarioStartSession : SimpleSession :=
  match start_session initialState defaultChargingRate "station-001" 10
      "session-1" "pay-1" 0 with
  | .ok (_, s) => s
  | .error _ => default

/-- The session held by `scenarioVerified` (charging, one minute seeded). -/
def scenarioVerifiedSession : SimpleSession :=
  match scenarioVerified.activeSession with
  | some s => s
  | none => default

/-- The response of the scenario's `verify_payment` call. -/
def scenarioVerifyResponse : VerifyResponse :=
  match verify_payment scenarioStart "session-1" "aa" 0 with
  | .ok (_, r) => r
  | .error _ => default

/-- The scenario session after its 36th poll, the one that completes it. -/
def scenarioCompletedSession : SimpleSession :=
  match (scenarioAfter 36).activeSession with
  | some s => s
  | none => default

/-- The scenario session after 35 polls (charging, 88/9 kWh delivered, one
tick short of the 10 kWh target). -/
def scenarioNearDoneSession : SimpleSession :=
  match (scenarioAfter 35).activeSession with
  | some s => s
  | none => default

/-- The session returned by the completing poll of the scenario. -/
def scenarioDoneSession : SimpleSession :=
  match get_current_session (scenarioAfter 35) 0 with
  | .ok (_, s) => s
  | .error _ => default

/-- Server state after stopping the verified scenario session at time 7. -/
def scenarioStopState : ServerState :=
  match stop_session scenarioVerified 7 with
  | .ok (st, _) => st
  | .error _ => scenarioVerified

/-- The session returned by stopping the verified scenario session. -/
def scenarioStopSession : SimpleSession :=
  match stop_session scenarioVerified 7 with
  | .ok (_, s) => s
  | .error _ => default

/-- The first catalog entry (`station-001`), for concrete instantiations. -/
def station001 : Station :=
  { id := "station-001", name := "ChargeX Indiranagar", lat := 129784/10000,
    lng := 776408/10000, price := 205/10, available := true,
    location := "100 Feet Rd, Indiranagar, Bangalore",
    rate_kwh := 205/10, rate_crypto := 25/100, power_kw := 150 }

/-- The third catalog entry (`station-003`, the unavailable one), for
concrete instantiations. -/
def station003 : Station :=
  { id := "station-003", name := "ChargeX Electronic City", lat := 128458/10000,
    lng := 776663/10000, price := 195/10, available := false,
    location := "Phase 1, Electronic City, Bangalore",
    rate_kwh := 195/10, rate_crypto := 24/100, power_kw := 50 }

/-! ## Session-level invariants (§3 of the specification) -/

/-- The bounds invariant: `0 ≤ kwh_delivered ≤ requested_kwh`. -/
def goodB (s : SimpleSession) : Prop :=
  0 ≤ s.kwh_delivered ∧ s.kwh_delivered ≤ s.kwh_total

/-- The cost equation: `current_cost == round(kwh_delivered * rate_per_kwh, 2)`
(with `price` the rate copied from the station at creation). -/
def costOK (s : SimpleSession) : Prop :=
  s.currentAmount = round2 (s.kwh_delivered * s.price)

/-- The observable invariant the code actually maintains: the bounds always,
and the cost equation whenever the session is not yet `completed`. -/
def ObsInv (s : SimpleSession) : Prop :=
  goodB s ∧ (s.status ≠ .completed → costOK s)

/-- The scenario session while charging, after `n` polls: delivered energy
`10*(60 + 300*n)/10800 = (1+5*n)/18` kWh. -/
def scenarioChargingSession (n : ℕ) : SimpleSession :=
  { id := "session-1"
    stationId := "station-001"
    stationName := "ChargeX Indiranagar"
    startTime := 0
    price := 205/10
    paymentId := "pay-1"
    status := .charging
    currentEnergy := (1 + 5*(n : ℚ))/18
    currentAmount := round2 ((1 + 5*(n : ℚ))/18 * (205/10))
    kwh_delivered := (1 + 5*(n : ℚ))/18
    kwh_total := 10
    time_elapsed := 60 + 300*(n : ℚ)
    payment := { amount := round2 (10 * (35/100))
                 currency := "USDC"
                 recipient := "0x" ++ zfill 40 "station-001"
                 tx_hash := some ("0x" ++ "aa") }
    chargingStartTime := some 0
    endTime := none }

/-- The log entries present while the scenario session charges. -/
def scenarioLogsCharging : List LogEntry :=
  [ ⟨0, "session_start", "Started charging session at " ++ "ChargeX Indiranagar"⟩,
    ⟨0, "payment_verified", "Payment verified successfully: " ++ ("0x" ++ "aa")⟩ ]

/-- The whole server state while the scenario session charges, after `n`
polls. -/
def scenarioChargingState (n : ℕ) : ServerState :=
  { activeSession := some (scenarioChargingSession n)
    transactions := []
    agent_logs := scenarioLogsCharging }

/-- The scenario session as completed by the 36th poll: the delivered energy
is clamped to the requested 10 kWh but `currentAmount` keeps the value
`round(10.0555… * 20.5, 2) = 206.14` computed from the unclamped energy
`181/18`. -/
def scenarioCompletedSessionVal : SimpleSession :=
  { id := "session-1"
    stationId := "station-001"
    stationName := "ChargeX Indiranagar"
    startTime := 0
    price := 205/10
    paymentId := "pay-1"
    status := .completed
    currentEnergy := 10
    currentAmount := 10307/50
    kwh_delivered := 10
    kwh_total := 10
    time_elapsed := 10800
    payment := { amount := round2 (10 * (35/100))
                 currency := "USDC"
                 recipient := "0x" ++ zfill 40 "station-001"
                 tx_hash := some ("0x" ++ "aa") }
    chargingStartTime := some 0
    endTime := some 0 }

/-- The whole server state after the 36th, completing, poll. -/
def scenarioCompletedStateVal : ServerState :=
  { activeSession := some scenarioCompletedSessionVal
    transactions := [⟨"ChargeX Indiranagar", 10307/50, 10, "completed"⟩]
    agent_logs := scenarioLogsCharging ++
      [⟨0, "session_complete", "Completed charging session at " ++ "ChargeX Indiranagar"⟩] }

/-! ## Shared evaluation lemmas -/

/-- Evaluation rule for `round` on rationals via the floor characterization. -/
theorem round_rat_eval (q : ℚ) (n : ℤ) (h1 : (n : ℚ) ≤ q + 1/2)
    (h2 : q + 1/2 < n + 1) : round q = n := by
  rw [round_eq]
  exact Int.floor_eq_iff.mpr ⟨h1, h2⟩

/-- The rounding at the scenario's completing poll:
`round(181/18 * 20.5 * 100) = round(20613.888…) = 20614`. -/
theorem round_completion_val : round ((185525 : ℚ)/9) = 20614 :=
  round_rat_eval _ _ (by norm_num) (by norm_num)

/-- The server state after the scenario's `verify_payment`, explicitly. -/
theorem scenarioVerified_eq : scenarioVerified = scenarioChargingState 0 := by
  norm_num [scenarioVerified, verify_payment, applyVerification, scenarioStart,
    start_session, initialState, findStation, get_payment_requirements,
    defaultChargingRate, stations, scenarioChargingState, scenarioChargingSession,
    scenarioLogsCharging, round2]

/-- The server state after 35 polls of the scenario session, explicitly:
still charging, `88/9 ≈ 9.78` kWh delivered. -/
theorem scenarioAfter35_eq : scenarioAfter 35 = scenarioChargingState 35 := by
  norm_num [scenarioAfter, afterPoll, get_current_session, scenarioVerified,
    verify_payment, applyVerification, scenarioStart, start_session, initialState,
    findStation, get_payment_requirements, defaultChargingRate, stations,
    Function.iterate_succ_apply', scenarioChargingState, scenarioChargingSession,
    scenarioLogsCharging, round2]

/-- The 36th poll completes the scenario session; the resulting state,
explicitly. -/
theorem scenarioAfter36_eq : scenarioAfter 36 = scenarioCompletedStateVal := by
  have h : scenarioAfter 36 = afterPoll (scenarioAfter 35) := by
    show afterPoll^[36] scenarioVerified = _
    rw [show (36 : ℕ) = 35 + 1 from rfl, Function.iterate_succ_apply']
    rfl
  rw [h, scenarioAfter35_eq]
  norm_num [afterPoll, get_current_session, scenarioChargingState,
    scenarioChargingSession, scenarioCompletedStateVal, scenarioCompletedSessionVal,
    scenarioLogsCharging, round2, round_completion_val]

/-! ## Claims -/

/-- C1, counterexample.  The quote produced by `start_session` for 10 kWh at
station-001 (whose `rate_crypto` is 0.25) has amount `3.5` — computed from
the payment manager's configured rate 0.35 — and not
`round(10 * rate_crypto, 2) = 2.5` as the claim states. -/
theorem C1_counterexample :
    scenarioStart.activeSession.map (fun s => s.payment.amount) = some (7/2) ∧
    (findStation stations "station-001").map
        (fun st => round2 (10 * st.rate_crypto)) = some (5/2) ∧
    (7/2 : ℚ) ≠ 5/2 := by
  refine ⟨?_, ?_, by norm_num⟩
  · norm_num [scenarioStart, start_session, initialState, findStation, stations,
      get_payment_requirements, defaultChargingRate, round2]
  · norm_num [findStation, stations, round2]

/-- C1, amended.  `main.py`'s inline crypto quote does equal
`round(kwhAmount * station.rate_crypto, 2)`, but the quote attached by
`start_session` (via `PaymentManager.get_payment_requirements`) equals
`round(kwhAmount * charging_rate, 2)` for the manager's configured
station-independent rate. -/
theorem C1_amended :
    (∀ sessions station_id station amount_kwh session_id now,
        findStation charging_stations station_id = some station →
        (main_start_charging sessions station_id amount_kwh "crypto"
            session_id now).toOption.map
            (fun p => p.2.payment.map (fun pay => pay.amount))
          = some (some (round2 (station.rate_crypto * amount_kwh)))) ∧
    (∀ chargingRate kwh station_id payment_id,
        (get_payment_requirements chargingRate kwh station_id
            payment_id).amount = round2 (kwh * chargingRate)) ∧
    (∀ st chargingRate stationId amount sid pid now st' s,
        start_session st chargingRate stationId amount sid pid now
          = .ok (st', s) →
        s.payment.amount = round2 (amount * chargingRate)) := by
  refine ⟨?_, ?_, ?_⟩
  · intro sessions station_id station amount_kwh session_id now hfind
    simp [main_start_charging, hfind, Except.toOption]
  · intro chargingRate kwh station_id payment_id
    rfl
  · intro st chargingRate stationId amount sid pid now st' s h
    cases hfs : findStation stations stationId with
    | none => simp [start_session, hfs] at h
    | some station =>
      cases hav : station.available with
      | false => simp [start_session, hfs, hav] at h
      | true =>
        simp [start_session, hfs, hav] at h
        rw [← h.2]
        rfl

/-- C1, witness for the amended theorem at station-001 and 10 kWh. -/
theorem C1_witness :
    (main_start_charging [] "station-001" 10 "crypto" "s1" 0).toOption.map
        (fun p => p.2.payment.map (fun pay => pay.amount))
      = some (some (round2 (station001.rate_crypto * 10))) :=
  C1_amended.1 [] "station-001" station001 10 "s1" 0
    (by norm_num [findStation, charging_stations, stations, station001])

/-- C5, counterexample.  Two simulated verifications of the same payment
data with distinct freshly generated uuids return the identical transaction
hash `"0xabc"`, taken verbatim from the submitted proof — the hash is
neither freshly generated nor unique across calls. -/
theorem C5_counterexample :
    (verify_payment_simulated ⟨some "0xabc"⟩ "aaaa").tx_hash = "0xabc" ∧
    (verify_payment_simulated ⟨some "0xabc"⟩ "bbbb").tx_hash = "0xabc" ∧
    ("aaaa" : String) ≠ "bbbb" := by
  refine ⟨rfl, rfl, by decide⟩

/-- C5, amended.  Simulated-mode verification always returns
`verified=true`; its transaction hash is taken from the submitted proof when
the proof carries one, and only otherwise is the freshly generated uuid
used.  (`simple_main.py`'s inline verification, by contrast, always answers
with a freshly generated hash.) -/
theorem C5_amended :
    (∀ pd fresh, (verify_payment_simulated pd fresh).verified = true) ∧
    (∀ h fresh, (verify_payment_simulated ⟨some h⟩ fresh).tx_hash = h) ∧
    (∀ fresh, (verify_payment_simulated ⟨none⟩ fresh).tx_hash
        = "0x" ++ fresh) ∧
    (∀ st s tx now st' r, st.activeSession = some s →
        verify_payment st s.id tx now = .ok (st', r) →
        r.verified = true ∧ r.tx_hash = some ("0x" ++ tx)) := by
  refine ⟨fun pd fresh => rfl, fun h fresh => rfl, fun fresh => rfl, ?_⟩
  intro st s tx now st' r hact h
  simp [verify_payment, hact, applyVerification] at h
  rw [← h.2]
  exact ⟨rfl, rfl⟩

/-- C5, witness: the amended theorem applied to the scenario's
`verify_payment` call. -/
theorem C5_witness :
    scenarioVerifyResponse.verified = true ∧
    scenarioVerifyResponse.tx_hash = some ("0x" ++ "aa") :=
  C5_amended.2.2.2 scenarioStart scenarioStartSession "aa" 0 scenarioVerified
    scenarioVerifyResponse rfl rfl

/-- C2, counterexample.  Running the scenario (10 kWh at station-001,
price 20.5) to completion: the 36th poll — an observable public read —
returns the session with `kwh_delivered = 10` clamped but
`current_cost = 206.14 = round(10.0555… * 20.5, 2)` computed from the
unclamped energy, while `round(kwh_delivered * rate, 2) = 205`. -/
theorem C2_counterexample :
    (scenarioAfter 36).activeSession.map
        (fun s => (s.kwh_delivered, s.currentAmount, s.price, s.status))
      = some (10, 10307/50, 205/10, .completed) ∧
    round2 (10 * (205/10)) = 205 ∧ (10307/50 : ℚ) ≠ 205 := by
  refine ⟨?_, by norm_num [round2], by norm_num⟩
  rw [scenarioAfter36_eq]
  norm_num [scenarioCompletedStateVal, scenarioCompletedSessionVal]

/-- C2, amended.  `0 ≤ kwh_delivered ≤ requested_kwh` holds at every
observable point, and `current_cost = round(kwh_delivered * rate, 2)` holds
at every observable point at which the session is not `completed`; at the
poll that completes the session the clamp does not recompute the cost, so
the equation can fail there (see the counterexample). -/
theorem C2_amended :
    (∀ st chargingRate stationId amount sid pid now st' s,
        0 ≤ amount →
        start_session st chargingRate stationId amount sid pid now
          = .ok (st', s) →
        ObsInv s ∧ st'.activeSession = some s) ∧
    (∀ st s tx now st' r,
        st.activeSession = some s → goodB s →
        verify_payment st s.id tx now = .ok (st', r) →
        ObsInv r.session ∧ st'.activeSession = some r.session) ∧
    (∀ st s now st' s',
        st.activeSession = some s → ObsInv s →
        get_current_session st now = .ok (st', s') →
        ObsInv s' ∧ st'.activeSession = some s') ∧
    (∀ st s now st' s',
        st.activeSession = some s → ObsInv s →
        stop_session st now = .ok (st', s') →
        ObsInv s') := by
  refine ⟨?_, ?_, ?_, ?_⟩
  · intro st chargingRate stationId amount sid pid now st' s ha h
    cases hfs : findStation stations stationId with
    | none => simp [start_session, hfs] at h
    | some station =>
      cases hav : station.available with
      | false => simp [start_session, hfs, hav] at h
      | true =>
        simp [start_session, hfs, hav] at h
        obtain ⟨hst, hs⟩ := h
        subst hst hs
        refine ⟨⟨⟨le_refl 0, ha⟩, ?_⟩, rfl⟩
        intro _
        simp [costOK, round2]
  · intro st s tx now st' r hact hgb h
    simp [verify_payment, hact, applyVerification] at h
    obtain ⟨hst, hr⟩ := h
    subst hst hr
    have htot : 0 ≤ s.kwh_total := le_trans hgb.1 hgb.2
    refine ⟨⟨⟨?_, ?_⟩, fun _ => rfl⟩, rfl⟩
    · exact mul_nonneg htot (by norm_num)
    · exact mul_le_of_le_one_right htot (by norm_num)
  · intro st s now st' s' hact hinv h
    simp only [get_current_session, hact] at h
    by_cases hch : s.status = .charging
    · simp only [hch, if_true, reduceIte] at h
      by_cases hcl : s.kwh_total ≤ s.kwh_delivered + s.kwh_total / 10800 * 300
      · simp only [hcl, reduceIte, Except.ok.injEq, Prod.mk.injEq] at h
        obtain ⟨hst, hs⟩ := h
        subst hst hs
        have htot : 0 ≤ s.kwh_total := le_trans hinv.1.1 hinv.1.2
        exact ⟨⟨⟨htot, le_refl _⟩, fun hne => absurd rfl hne⟩, rfl⟩
      · simp only [hcl, reduceIte, Except.ok.injEq, Prod.mk.injEq] at h
        obtain ⟨hst, hs⟩ := h
        subst hst hs
        have htot : 0 ≤ s.kwh_total := le_trans hinv.1.1 hinv.1.2
        refine ⟨⟨⟨?_, ?_⟩, fun _ => rfl⟩, rfl⟩
        · have : (0 : ℚ) ≤ s.kwh_total / 10800 * 300 := by positivity
          exact add_nonneg hinv.1.1 this
        · exact le_of_lt (lt_of_not_le hcl)
    · simp only [hch, reduceIte, Except.ok.injEq, Prod.mk.injEq] at h
      obtain ⟨hst, hs⟩ := h
      subst hst hs
      exact ⟨hinv, hact⟩
  · intro st s now st' s' hact hinv h
    simp only [stop_session, hact, Except.ok.injEq, Prod.mk.injEq] at h
    obtain ⟨hst, hs⟩ := h
    subst hs
    exact ⟨hinv.1, fun hne => absurd rfl hne⟩

/-- C2, witness: the session created by the scenario's `start_session`
satisfies the observable invariant. -/
theorem C2_witness :
    ObsInv scenarioStartSession ∧
    scenarioStart.activeSession = some scenarioStartSession :=
  C2_amended.1 initialState defaultChargingRate "station-001" 10 "session-1"
    "pay-1" 0 scenarioStart scenarioStartSession (by norm_num) rfl

/-- C3, counterexample.  On a rejected verification result the handler
leaves the session exactly as it was — still `awaiting_payment`, never
`failed`; and the shipped endpoint hardcodes `verified=True`, so rejection
cannot even occur. -/
theorem C3_counterexample :
    (applyVerification ⟨false, "0xdead", none⟩ 0 scenarioStart
        scenarioStartSession).1 = scenarioStart ∧
    (applyVerification ⟨false, "0xdead", none⟩ 0 scenarioStart
        scenarioStartSession).2.session.status = .awaitingPayment ∧
    SessionStatus.awaitingPayment ≠ SessionStatus.failed ∧
    (verify_payment scenarioStart "session-1" "bb" 0).toOption.map
        (fun p => p.2.verified) = some true := by
  refine ⟨rfl, rfl, by decide, rfl⟩

/-- C3, amended.  `VerifyPayment` on an existing `AwaitingPayment` session
always verifies (the result is hardcoded `verified=true`): it transitions
the session to `Charging`, records `chargingStartTime` and the transaction
hash, and seeds one minute of progress (`time_elapsed = 60`,
`kwh_delivered = kwh_total * 60/10800`, positive whenever `kwh_total > 0`
and preserved positive by every subsequent poll); a rejected result would
leave the session unchanged — no transition to `Failed` exists in the
code. -/
theorem C3_amended :
    (∀ st s tx now, st.activeSession = some s →
        s.status = .awaitingPayment →
        (verify_payment st s.id tx now).toOption.map
            (fun p => (p.2.verified, p.2.session.status,
              p.2.session.chargingStartTime, p.2.session.payment.tx_hash,
              p.2.session.time_elapsed, p.2.session.kwh_delivered))
          = some (true, .charging, some now, some ("0x" ++ tx), 60,
              s.kwh_total * (60 / 10800))) ∧
    (∀ st s tx now st' r, st.activeSession = some s → 0 < s.kwh_total →
        verify_payment st s.id tx now = .ok (st', r) →
        0 < r.session.kwh_delivered) ∧
    (∀ st s now st' s', st.activeSession = some s → s.status = .charging →
        0 < s.kwh_total → 0 < s.kwh_delivered →
        get_current_session st now = .ok (st', s') →
        0 < s'.kwh_delivered) ∧
    (∀ vr now st s, vr.verified = false →
        (applyVerification vr now st s).1 = st ∧
        (applyVerification vr now st s).2.session = s) := by
  refine ⟨?_, ?_, ?_, ?_⟩
  · intro st s tx now hact _
    simp [verify_payment, hact, applyVerification, Except.toOption]
  · intro st s tx now st' r hact htot h
    simp [verify_payment, hact, applyVerification] at h
    rw [← h.2]
    positivity
  · intro st s now st' s' hact hch htot hpos h
    simp only [get_current_session, hact, hch, reduceIte] at h
    by_cases hcl : s.kwh_total ≤ s.kwh_delivered + s.kwh_total / 10800 * 300
    · simp only [hcl, reduceIte, Except.ok.injEq, Prod.mk.injEq] at h
      rw [← h.2]
      exact htot
    · simp only [hcl, reduceIte, Except.ok.injEq, Prod.mk.injEq] at h
      rw [← h.2]
      have : (0 : ℚ) < s.kwh_total / 10800 * 300 := by positivity
      exact add_pos hpos this
  · intro vr now st s hvr
    simp [applyVerification, hvr]

/-- C3, witness: the amended theorem applied to the scenario's verification
call. -/
theorem C3_witness :
    (verify_payment scenarioStart scenarioStartSession.id "aa" 0).toOption.map
        (fun p => (p.2.verified, p.2.session.status,
          p.2.session.chargingStartTime, p.2.session.payment.tx_hash,
          p.2.session.time_elapsed, p.2.session.kwh_delivered))
      = some (true, .charging, some 0, some ("0x" ++ "aa"), 60,
          scenarioStartSession.kwh_total * (60 / 10800)) :=
  C3_amended.1 scenarioStart scenarioStartSession "aa" 0 rfl rfl

/-- C4, counterexample.  The scenario session completed by the 36th poll is
terminal, yet `verify_payment` on it succeeds and moves it back to
`charging` — a terminal state neither rejects the mutating operation with an
`InvalidState` error nor prevents re-entering `Charging`. -/
theorem C4_counterexample :
    (scenarioAfter 36).activeSession.map (fun s => s.status)
      = some .completed ∧
    (verify_payment (scenarioAfter 36) "session-1" "cc" 0).toOption.map
        (fun p => p.2.session.status) = some .charging := by
  rw [scenarioAfter36_eq]
  exact ⟨rfl, rfl⟩

/-- C4, amended.  Polling a terminal (`completed`) session leaves the state
unchanged, and `main.py`'s `process_payment` rejects sessions that are not
awaiting payment; but `simple_main.py` performs no terminal-state checks:
its `verify_payment` moves any matching session — including a `completed`
one — to `charging`, and its `stop_session` completes any active session
whatever its state. -/
theorem C4_amended :
    (∀ st s now, st.activeSession = some s → s.status = .completed →
        get_current_session st now = .ok (st, s)) ∧
    (∀ sessions payments sid s tx now,
        lookupSession sessions sid = some s →
        s.status ≠ .awaitingPayment →
        main_process_payment sessions payments sid tx now
          = .error ⟨400, "Session not awaiting payment"⟩) ∧
    (∀ st s tx now, st.activeSession = some s →
        (verify_payment st s.id tx now).toOption.map
            (fun p => p.2.session.status) = some .charging) ∧
    (∀ st s now, st.activeSession = some s →
        (stop_session st now).toOption.map (fun p => p.2.status)
          = some .completed) := by
  refine ⟨?_, ?_, ?_, ?_⟩
  · intro st s now hact hcs
    simp [get_current_session, hact, hcs]
  · intro sessions payments sid s tx now hlk hne
    simp [main_process_payment, hlk, hne]
  · intro st s tx now hact
    simp [verify_payment, hact, applyVerification, Except.toOption]
  · intro st s now hact
    simp [stop_session, hact, Except.toOption]

/-- C4, witness: polling the completed scenario session changes nothing. -/
theorem C4_witness :
    get_current_session scenarioCompletedStateVal 0
      = .ok (scenarioCompletedStateVal, scenarioCompletedSessionVal) :=
  C4_amended.1 scenarioCompletedStateVal scenarioCompletedSessionVal 0 rfl rfl

/-- C6, counterexample.  With the scenario's verified session still live
(`charging`), a second `start_session` succeeds and silently replaces it:
afterwards the store holds only the new `session-2`. -/
theorem C6_counterexample :
    scenarioVerified.activeSession.map (fun s => (s.id, s.status))
      = some ("session-1", .charging) ∧
    (start_session scenarioVerified defaultChargingRate "station-002" 5
        "session-2" "pay-2" 1).toOption.map
        (fun p => p.1.activeSession.map (fun s => s.id))
      = some (some "session-2") := by
  exact ⟨rfl, rfl⟩

/-- C6, amended.  `start_session` performs no live-session check: on any
existing available station it succeeds whatever the current store contents,
unconditionally overwriting the single global active session with the new
one. -/
theorem C6_amended :
    ∀ st chargingRate stationId station amount sid pid now,
      findStation stations stationId = some station →
      station.available = true →
      (start_session st chargingRate stationId amount sid pid now).toOption.map
          (fun p => (p.1.activeSession.map (fun s => s.id), p.2.id))
        = some (some sid, sid) := by
  intro st chargingRate stationId station amount sid pid now hfs hav
  simp [start_session, hfs, hav, Except.toOption]

/-- C6, witness: the amended theorem applied on top of the live scenario
state. -/
theorem C6_witness :
    (start_session scenarioVerified defaultChargingRate "station-001" 5
        "session-2" "pay-2" 1).toOption.map
        (fun p => (p.1.activeSession.map (fun s => s.id), p.2.id))
      = some (some "session-2", "session-2") :=
  C6_amended scenarioVerified defaultChargingRate "station-001" station001 5
    "session-2" "pay-2" 1 (by norm_num [findStation, stations, station001]) rfl

/-- C7, counterexample.  `stop_session` on the scenario session that is
still `awaiting_payment` succeeds (no `Charging` precondition, no
`InvalidState` error), marks it `completed` (the code has no `stopped`
state), and clears the store, so the record is no longer retrievable. -/
theorem C7_counterexample :
    scenarioStartSession.status = .awaitingPayment ∧
    (stop_session scenarioStart 5).toOption.map
        (fun p => (p.1.activeSession, p.2.status, p.2.endTime))
      = some (none, .completed, some 5) ∧
    SessionStatus.completed ≠ SessionStatus.stopped := by
  refine ⟨rfl, rfl, by decide⟩

/-- C7, amended.  `stop_session` accepts any active session whatever its
state: it marks the session `completed` with `endTime = now`, keeps
`kwh_delivered`/`current_cost` at their values at stop time, appends a
settlement record and a log entry, and clears the global active session —
so a subsequent poll finds no session (404) rather than the stopped record.
`app.py`'s `stop_charging`, by contrast, does reject non-`charging`
sessions. -/
theorem C7_amended :
    (∀ st s now st' s', st.activeSession = some s →
        stop_session st now = .ok (st', s') →
        s'.status = .completed ∧ s'.endTime = some now ∧
        s'.kwh_delivered = s.kwh_delivered ∧
        s'.currentAmount = s.currentAmount ∧
        st'.activeSession = none ∧
        st'.transactions = st.transactions ++
          [⟨s.stationName, s.currentAmount, s.currentEnergy, "completed"⟩] ∧
        st'.agent_logs = st.agent_logs ++
          [⟨now, "session_stop",
            "Completed charging session at " ++ s.stationName⟩] ∧
        get_current_session st' now = .error ⟨404, "No active session"⟩) ∧
    (∀ sessions sid s elapsed now,
        lookupAppSession sessions sid = some s → s.status ≠ .charging →
        app_stop_charging sessions sid elapsed now
          = .error ⟨400, "Session is not in charging state"⟩) := by
  constructor
  · intro st s now st' s' hact h
    simp only [stop_session, hact, Except.ok.injEq, Prod.mk.injEq] at h
    obtain ⟨hst, hs⟩ := h
    subst hst hs
    exact ⟨rfl, rfl, rfl, rfl, rfl, rfl, rfl, by simp [get_current_session]⟩
  · intro sessions sid s elapsed now hlk hne
    simp [app_stop_charging, hlk, hne]

/-- C7, witness: stopping the verified (charging) scenario session. -/
theorem C7_witness :
    scenarioStopSession.status = .completed ∧
    scenarioStopSession.endTime = some 7 ∧
    scenarioStopSession.kwh_delivered = scenarioVerifiedSession.kwh_delivered ∧
    scenarioStopSession.currentAmount = scenarioVerifiedSession.currentAmount ∧
    scenarioStopState.activeSession = none ∧
    scenarioStopState.transactions = scenarioVerified.transactions ++
      [⟨scenarioVerifiedSession.stationName,
        scenarioVerifiedSession.currentAmount,
        scenarioVerifiedSession.currentEnergy, "completed"⟩] ∧
    scenarioStopState.agent_logs = scenarioVerified.agent_logs ++
      [⟨7, "session_stop",
        "Completed charging session at " ++ scenarioVerifiedSession.stationName⟩] ∧
    get_current_session scenarioStopState 7
      = .error ⟨404, "No active session"⟩ :=
  C7_amended.1 scenarioVerified scenarioVerifiedSession 7 scenarioStopState
    scenarioStopSession rfl rfl

/-- C8, confirmed.  When a poll's recomputation on a `charging` session
reaches the requested energy, the session's delivered energy is clamped to
exactly `kwh_total`, `time_elapsed` is set to the 10800-second full-charge
constant, the session becomes `completed` with `endTime = now`, and a
settlement record and a completion log entry are appended. -/
theorem C8_completes :
    ∀ st s now st' s', st.activeSession = some s → s.status = .charging →
      s.kwh_total ≤ s.kwh_delivered + s.kwh_total / 10800 * 300 →
      get_current_session st now = .ok (st', s') →
      s'.kwh_delivered = s.kwh_total ∧ s'.currentEnergy = s.kwh_total ∧
      s'.time_elapsed = 10800 ∧ s'.status = .completed ∧
      s'.endTime = some now ∧ st'.activeSession = some s' ∧
      st'.transactions = st.transactions ++
        [⟨s.stationName,
          round2 ((s.kwh_delivered + s.kwh_total / 10800 * 300) * s.price),
          s.kwh_total, "completed"⟩] ∧
      st'.agent_logs = st.agent_logs ++
        [⟨now, "session_complete",
          "Completed charging session at " ++ s.stationName⟩] := by
  intro st s now st' s' hact hch hcl h
  simp only [get_current_session, hact, hch, hcl, reduceIte,
    Except.ok.injEq, Prod.mk.injEq] at h
  obtain ⟨hst, hs⟩ := h
  subst hst hs
  exact ⟨rfl, rfl, rfl, rfl, rfl, rfl, rfl, rfl⟩

/-- C8, witness: the 36th poll of the scenario completes the session with
all the claimed effects. -/
theorem C8_witness :
    scenarioCompletedSessionVal.kwh_delivered
        = (scenarioChargingSession 35).kwh_total ∧
    scenarioCompletedSessionVal.currentEnergy
        = (scenarioChargingSession 35).kwh_total ∧
    scenarioCompletedSessionVal.time_elapsed = 10800 ∧
    scenarioCompletedSessionVal.status = .completed ∧
    scenarioCompletedSessionVal.endTime = some 0 ∧
    scenarioCompletedStateVal.activeSession
        = some scenarioCompletedSessionVal ∧
    scenarioCompletedStateVal.transactions
        = (scenarioChargingState 35).transactions ++
          [⟨(scenarioChargingSession 35).stationName,
            round2 (((scenarioChargingSession 35).kwh_delivered +
              (scenarioChargingSession 35).kwh_total / 10800 * 300) *
                (scenarioChargingSession 35).price),
            (scenarioChargingSession 35).kwh_total, "completed"⟩] ∧
    scenarioCompletedStateVal.agent_logs
        = (scenarioChargingState 35).agent_logs ++
          [⟨0, "session_complete",
            "Completed charging session at " ++
              (scenarioChargingSession 35).stationName⟩] :=
  C8_completes (scenarioChargingState 35) (scenarioChargingSession 35) 0
    scenarioCompletedStateVal scenarioCompletedSessionVal rfl rfl
    (by norm_num [scenarioChargingSession])
    (by norm_num [get_current_session, scenarioChargingState,
      scenarioChargingSession, scenarioCompletedStateVal,
      scenarioCompletedSessionVal, scenarioLogsCharging, round2,
      round_completion_val])

/-- C9, counterexample.  `start_session` with the non-positive requested
amount `0` at an available station does not fail: it creates and stores an
`awaiting_payment` session with `kwh_total = 0` — no validation of
`kwhAmount > 0` exists. -/
theorem C9_counterexample :
    (start_session initialState defaultChargingRate "station-001" 0
        "session-9" "pay-9" 0).toOption.map
        (fun p => (p.2.status, p.2.kwh_total, p.1.activeSession.isSome))
      = some (.awaitingPayment, 0, true) := rfl

/-- C9, amended.  `start_session` fails with a 404 and creates nothing for
an unknown station, and with a 400 for an unavailable one; but a
non-positive `kwhAmount` is accepted and a session is created with it, and
`main.py`'s `start_charging` additionally performs no availability check at
all. -/
theorem C9_amended :
    (∀ st chargingRate stationId amount sid pid now,
        findStation stations stationId = none →
        start_session st chargingRate stationId amount sid pid now
          = .error ⟨404, "Station not found"⟩) ∧
    (∀ st chargingRate stationId station amount sid pid now,
        findStation stations stationId = some station →
        station.available = false →
        start_session st chargingRate stationId amount sid pid now
          = .error ⟨400, "Station not available"⟩) ∧
    (∀ st chargingRate stationId station amount sid pid now,
        findStation stations stationId = some station →
        station.available = true →
        (start_session st chargingRate stationId amount sid pid
            now).toOption.map (fun p => p.2.kwh_total) = some amount) ∧
    (∀ sessions stationId amount pm sid now,
        findStation charging_stations stationId = none →
        main_start_charging sessions stationId amount pm sid now
          = .error ⟨404, "Charging station not found"⟩) ∧
    (∀ sessions stationId station amount sid now,
        findStation charging_stations stationId = some station →
        (main_start_charging sessions stationId amount "crypto" sid
            now).toOption.map (fun p => p.2.status)
          = some .awaitingPayment) := by
  refine ⟨?_, ?_, ?_, ?_, ?_⟩
  · intro st chargingRate stationId amount sid pid now hfs
    simp [start_session, hfs]
  · intro st chargingRate stationId station amount sid pid now hfs hav
    simp [start_session, hfs, hav]
  · intro st chargingRate stationId station amount sid pid now hfs hav
    simp [start_session, hfs, hav, Except.toOption]
  · intro sessions stationId amount pm sid now hfs
    simp [main_start_charging, hfs]
  · intro sessions stationId station amount sid now hfs
    simp [main_start_charging, hfs, Except.toOption]

/-- C9, witness: starting at the unavailable station-003 is rejected with
the 400 error. -/
theorem C9_witness :
    start_session initialState defaultChargingRate "station-003" 5 "s" "p" 0
      = .error ⟨400, "Station not available"⟩ :=
  C9_amended.2.1 initialState defaultChargingRate "station-003" station003 5
    "s" "p" 0 (by simp [findStation, stations, station003]) rfl

/-- C10, confirmed.  A start request whose payment method is not `"crypto"`
creates the session directly in the `charging` state with `start_time`
set to the current instant, returns no payment block, and involves no
payment quote or verification — in both `main.py` and `app.py`. -/
theorem C10_card_start :
    (∀ sessions stationId station amount pm sid now,
        findStation charging_stations stationId = some station →
        pm ≠ "crypto" →
        lookupSession sessions sid = none →
        (main_start_charging sessions stationId amount pm sid
            now).toOption.map
            (fun p => (p.2.status, p.2.payment,
              (lookupSession p.1 sid).map (fun s => (s.status, s.start_time))))
          = some (.charging, none, some (.charging, some now))) ∧
    (∀ appStations sessions stationId station amount pm sid now,
        findStation appStations stationId = some station →
        station.available = true →
        pm ≠ "crypto" →
        lookupAppSession sessions sid = none →
        (app_start_charging appStations sessions stationId amount pm sid
            now).toOption.map
            (fun p => (lookupAppSession p.1 sid).map
              (fun s => (s.status, s.start_time)))
          = some (some (.charging, now))) := by
  constructor
  · intro sessions stationId station amount pm sid now hfind hpm hlk
    have hfind2 : sessions.find? (fun p => p.1 == sid) = none := by
      simpa [lookupSession] using hlk
    simp [main_start_charging, hfind, hpm, Except.toOption, lookupSession,
      List.find?_append, hfind2]
  · intro appStations sessions stationId station amount pm sid now hfind hav
      hpm hlk
    have hfind2 : sessions.find? (fun p => p.1 == sid) = none := by
      simpa [lookupAppSession] using hlk
    simp [app_start_charging, hfind, hav, hpm, Except.toOption,
      lookupAppSession, List.find?_append, hfind2]

/-- C10, witness: a card-method start at station-001 begins charging
immediately. -/
theorem C10_witness :
    (main_start_charging [] "station-001" 10 "card" "s10" 3).toOption.map
        (fun p => (p.2.status, p.2.payment,
          (lookupSession p.1 "s10").map (fun s => (s.status, s.start_time))))
      = some (.charging, none, some (.charging, some 3)) :=
  C10_card_start.1 [] "station-001" station001 10 "card" "s10" 3
    (by norm_num [findStation, charging_stations, stations, station001])
    (by decide) rfl
